import Mathlib

/-!
# Verification of the pharmacy back-office stock core

A shallow embedding of the repository's batch-based stock ledger:

* `AddPurchaseModal.handleSubmit` — validation and purchase fan-out
  (one purchase record plus one batch record per line-item × batch-entry pair);
* the `batches` aggregation of `inventory/page.tsx` (`getStockFromBatches`);
* the expiry classification of `ViewBatchesModal` (NoExpiry / Expired /
  ExpiringSoon / Active);
* `getStatusBadge` of `inventory/page.tsx` (OutOfStock / LowStock / InStock);
* `EditInventoryModal.handleSubmit` — in-place item update preserving `createdAt`.

JavaScript numbers are modelled as `ℚ` (exact decimal arithmetic); a text
field that is run through `parseFloat` / `parseInt` is modelled as an
`Option` of the parsed value, `none` standing for an empty or unparseable
field (`parseFloat('')` is `NaN`, and the empty string is the only falsy
string, so the code's `!field || isNaN(parsed)` test is exactly
`parsed = none` in this model).  Dates/times are integers (milliseconds),
with calendar dates truncated to midnight as the code does via
`setHours(0,0,0,0)`.
-/

namespace Pms

/-- JS `x || 0` applied to a `parseFloat`/`parseInt` result: `none` models
`NaN`/`undefined`; a parsed `0` is falsy but `0 || 0 = 0`, so `getD 0` is
exact. -/
def jsOr0 (o : Option ℚ) : ℚ := o.getD 0

/-- JS `x || 0` for a parsed integer field (`parseInt(...) || 0`). -/
def jsOrInt0 (o : Option ℤ) : ℤ := o.getD 0

/-- JS `Math.round`: rounds to the nearest integer, halves toward `+∞`,
i.e. `⌊q + 1/2⌋`. -/
def jsRound (q : ℚ) : ℤ := ⌊q + 1/2⌋

/-- JS `a || b` on an optional string, where `null` and the empty string are
falsy (`selectedSupplier.companyName || selectedSupplier.name`). -/
def jsOrStr (o : Option String) (d : String) : String :=
  match o with
  | some s => if s = "" then d else s
  | none => d

/-! ## AddPurchaseModal.tsx — form state and records -/

/-- One `(quantity, expiryDate)` row of the add-purchase form
(`interface BatchEntry`); both fields are text inputs, `quantity` is read
through `parseFloat`. -/
structure BatchEntry where
  quantity : Option ℚ
  expiryDate : String
deriving DecidableEq

/-- One line item of the add-purchase form (`interface PurchaseItem`):
an inventory item with one shared cost/selling price and one or more
batch entries. -/
structure PurchaseItem where
  itemId : String
  itemName : String
  costPrice : Option ℚ
  sellingPrice : Option ℚ
  batches : List BatchEntry
deriving DecidableEq

/-- The supplier fields `handleSubmit` consumes (`interface Supplier`). -/
structure Supplier where
  id : String
  name : String
  companyName : Option String
deriving DecidableEq

/-- The persisted purchase record (`purchaseData` of `handleSubmit`). -/
structure PurchaseRecord where
  id : String
  supplierId : String
  supplierName : String
  purchaseDate : String
  totalItems : ℕ
  totalQuantity : ℚ
  totalCost : ℚ
deriving DecidableEq

/-- The persisted batch record (`batchData` of `handleSubmit`): prices are
stored in minor units (cents) after `Math.round((… ) * 100)`. -/
structure BatchRecord where
  itemId : String
  purchaseId : String
  quantity : ℚ
  costPrice : ℤ
  sellingPrice : ℤ
  expiryDate : String
deriving DecidableEq

/-! ## AddPurchaseModal.tsx — validation (lines 174–221)

The code alerts and returns on the first failure; only accept/reject (and
the absence of writes) is observable here, so validation is a predicate. -/

/-- `!item.costPrice || isNaN(costPrice) || costPrice < 0` (negated):
the price field parses to a number `≥ 0`. -/
def validPrice (o : Option ℚ) : Bool :=
  match o with
  | some c => decide (0 ≤ c)
  | none => false

/-- `!batch.quantity || isNaN(quantity) || quantity <= 0` (negated):
the quantity field parses to a number `> 0`. -/
def validQuantity (o : Option ℚ) : Bool :=
  match o with
  | some q => decide (0 < q)
  | none => false

/-- Per-batch-entry checks: quantity parses `> 0` and
`batch.expiryDate` is non-empty. -/
def validBatchEntry (b : BatchEntry) : Bool :=
  validQuantity b.quantity && b.expiryDate != ""

/-- Per-line-item checks: both prices parse `≥ 0`, at least one batch
entry, and every batch entry is valid. -/
def validPurchaseItem (it : PurchaseItem) : Bool :=
  validPrice it.costPrice && validPrice it.sellingPrice &&
    !it.batches.isEmpty && it.batches.all validBatchEntry

/-- The whole pre-write validation of `handleSubmit`: a supplier is
selected, at least one line item, and every line item is valid. -/
def validSubmission (selectedSupplierId : String) (purchaseItems : List PurchaseItem) : Bool :=
  selectedSupplierId != "" && !purchaseItems.isEmpty &&
    purchaseItems.all validPurchaseItem

/-! ## AddPurchaseModal.tsx — totals and fan-out (lines 231–285) -/

/-- `item.batches.reduce((batchSum, batch) => batchSum + (parseFloat(batch.quantity) || 0), 0)`. -/
def itemTotalQuantity (it : PurchaseItem) : ℚ :=
  it.batches.foldl (fun batchSum b => batchSum + jsOr0 b.quantity) 0

/-- `purchaseItems.reduce((sum, item) => sum + itemTotal, 0)` for quantities. -/
def totalQuantityCalc (items : List PurchaseItem) : ℚ :=
  items.foldl (fun sum it => sum + itemTotalQuantity it) 0

/-- `item.batches.reduce((batchSum, batch) => batchSum + (parseFloat(batch.quantity) || 0) * (parseFloat(item.costPrice) || 0) * 100, 0)`.
No rounding is applied here. -/
def itemTotalCost (it : PurchaseItem) : ℚ :=
  it.batches.foldl
    (fun batchSum b => batchSum + jsOr0 b.quantity * jsOr0 it.costPrice * 100) 0

/-- `purchaseItems.reduce((sum, item) => sum + itemTotal, 0)` for cost. -/
def totalCostCalc (items : List PurchaseItem) : ℚ :=
  items.foldl (fun sum it => sum + itemTotalCost it) 0

/-- The `batchData` written for one batch entry of one line item:
references the freshly generated purchase id and stores the item-level
prices in cents via `Math.round((parseFloat(...) || 0) * 100)`. -/
def mkBatchRecord (purchaseId : String) (it : PurchaseItem) (b : BatchEntry) : BatchRecord :=
  { itemId := it.itemId
    purchaseId := purchaseId
    quantity := jsOr0 b.quantity
    costPrice := jsRound (jsOr0 it.costPrice * 100)
    sellingPrice := jsRound (jsOr0 it.sellingPrice * 100)
    expiryDate := b.expiryDate }

/-- The nested `purchaseItems.forEach(item => item.batches.forEach(batch => …))`
fan-out: one batch record per line-item × batch-entry pair. -/
def fanOutBatches (purchaseId : String) (items : List PurchaseItem) : List BatchRecord :=
  items.flatMap (fun it => it.batches.map (mkBatchRecord purchaseId it))

/-- The `purchaseData` object written to `purchases/{purchaseId}`. -/
def mkPurchaseRecord (purchaseId : String) (sup : Supplier)
    (selectedSupplierId purchaseDate : String) (items : List PurchaseItem) : PurchaseRecord :=
  { id := purchaseId
    supplierId := selectedSupplierId
    supplierName := jsOrStr sup.companyName sup.name
    purchaseDate := purchaseDate
    totalItems := items.length
    totalQuantity := totalQuantityCalc items
    totalCost := totalCostCalc items }

/-- `AddPurchaseModal.handleSubmit`, success path as a value: validation
first (any failure returns before any write), then the supplier lookup
(`suppliers.find` — a miss throws before the purchase write), then the
purchase record and the fanned-out batch records.  `purchaseId` stands for
the store-generated key `push(purchaseRef).key`.  `none` means the
submission was rejected / threw with nothing persisted. -/
def handleSubmit (suppliers : List Supplier)
    (selectedSupplierId purchaseDate purchaseId : String)
    (purchaseItems : List PurchaseItem) : Option (PurchaseRecord × List BatchRecord) :=
  if validSubmission selectedSupplierId purchaseItems then
    match suppliers.find? (fun s => s.id == selectedSupplierId) with
    | some sup =>
        some (mkPurchaseRecord purchaseId sup selectedSupplierId purchaseDate purchaseItems,
          fanOutBatches purchaseId purchaseItems)
    | none => none
  else none

/-! ## inventory/page.tsx — stock aggregation (lines 129–163)

The subscription callback folds the `batches` collection into a
`Record<string, number>` (`stockByItem`), modelled as `String → Option ℚ`;
`getStockFromBatches` then reads `batches[itemId] || 0`. -/

/-- A stored batch row as the aggregation sees it: only `itemId` and
`quantity` are read (`batch.quantity || 0` guards a missing field), but the
row also carries its expiry date, which the aggregation ignores. -/
structure StoredBatch where
  itemId : String
  quantity : Option ℚ
  expiryDate : Option String
deriving DecidableEq

/-- One step of the `Object.keys(data).forEach` fold:
`if (stockByItem[itemId]) { += quantity } else { = quantity }` — note the
JS truthiness test, so an entry holding `0` is overwritten, not added to
(same value either way). -/
def stockStep (acc : String → Option ℚ) (b : StoredBatch) : String → Option ℚ :=
  fun k =>
    if k = b.itemId then
      match acc b.itemId with
      | some v => if v ≠ 0 then some (v + jsOr0 b.quantity) else some (jsOr0 b.quantity)
      | none => some (jsOr0 b.quantity)
    else acc k

/-- The accumulated `stockByItem` record over the whole `batches`
collection, starting from the empty record. -/
def stockByItem (batches : List StoredBatch) : String → Option ℚ :=
  batches.foldl stockStep (fun _ => none)

/-- `getStockFromBatches = (itemId) => batches[itemId] || 0`. -/
def getStockFromBatches (batches : List StoredBatch) (itemId : String) : ℚ :=
  match stockByItem batches itemId with
  | some v => v
  | none => 0

/-! ## ViewBatchesModal.tsx — expiry classification (lines 200–274) -/

/-- The four mutually exclusive status badges rendered per batch row. -/
inductive ExpiryStatus where
  | noExpiry
  | expired
  | expiringSoon (daysUntilExpiry : ℤ)
  | active
deriving DecidableEq

/-- Milliseconds per day, the divisor `1000 * 60 * 60 * 24`. -/
def msPerDay : ℤ := 86400000

/-- `Math.ceil((expiryDate.getTime() - today.getTime()) / (1000*60*60*24))`,
times in milliseconds. -/
def daysUntilExpiry (todayMs expiryMs : ℤ) : ℤ :=
  ⌈((expiryMs - todayMs : ℤ) : ℚ) / (msPerDay : ℚ)⌉

/-- The per-row classification: `hasExpiryDate` false (`null` or empty
string) → NoExpiry; else `expiryDate < today` → Expired; else
`daysUntilExpiry <= 30` → "Expires in d days"; else Active.  `todayMs` is
the current time with `setHours(0,0,0,0)` applied; `expiryMs` is the parsed
expiry date (or `none` when absent). -/
def classifyBatch (todayMs : ℤ) (expiryMs : Option ℤ) : ExpiryStatus :=
  match expiryMs with
  | none => .noExpiry
  | some e =>
      if e < todayMs then .expired
      else if daysUntilExpiry todayMs e ≤ 30 then .expiringSoon (daysUntilExpiry todayMs e)
      else .active

/-! ## inventory/page.tsx — status badge (lines 203–223) -/

/-- The tri-state stock badge. -/
inductive StockStatus where
  | outOfStock
  | lowStock
  | inStock
deriving DecidableEq

/-- `getStatusBadge(stock, minimumStock)`: `stock === 0` → Out of Stock;
`stock <= minimumStock` → Low Stock; otherwise In Stock. -/
def getStatusBadge (stock minimumStock : ℚ) : StockStatus :=
  if stock = 0 then .outOfStock
  else if stock ≤ minimumStock then .lowStock
  else .inStock

/-! ## EditInventoryModal (src/unnamed/part_002) — item update (lines 100–136) -/

/-- A stored inventory item (`interface InventoryItem`, minus the id,
which is the record key). -/
structure StoredInventoryItem where
  tradeName : String
  genericName : Option String
  costPrice : ℚ
  sellingPrice : ℚ
  currentStock : ℤ
  minimumStock : ℤ
  brandName : Option String
  category : Option String
  notes : Option String
  discountPrevented : Bool
  createdAt : String
  updatedAt : String
deriving DecidableEq

/-- The edit form's text fields (`formData`); numeric fields carry their
`parseFloat`/`parseInt` results, `none` for empty/unparseable. -/
structure EditForm where
  tradeName : String
  genericName : String
  costPrice : Option ℚ
  sellingPrice : Option ℚ
  currentStock : Option ℤ
  minimumStock : Option ℤ
  brandName : String
  category : String
  notes : String
  discountPrevented : Bool
deriving DecidableEq

/-- JS `s.trim() || null`: empty after trimming is stored as `null`. -/
def trimOrNull (s : String) : Option String :=
  if s.trim = "" then none else some s.trim

/-- JS `s || null` (no trim — used for the `category` select). -/
def strOrNull (s : String) : Option String :=
  if s = "" then none else some s

/-- The `updatedItem` object built by `EditInventoryModal.handleSubmit`:
every field from the form, `updatedAt` fresh, and `createdAt` copied from
the item being edited (the code's explicit `// Preserve createdAt`). -/
def updatedItemOf (item : StoredInventoryItem) (form : EditForm) (now : String) :
    StoredInventoryItem :=
  { tradeName := form.tradeName.trim
    genericName := trimOrNull form.genericName
    costPrice := jsOr0 form.costPrice
    sellingPrice := jsOr0 form.sellingPrice
    currentStock := jsOrInt0 form.currentStock
    minimumStock := jsOrInt0 form.minimumStock
    brandName := trimOrNull form.brandName
    category := strOrNull form.category
    notes := trimOrNull form.notes
    discountPrevented := form.discountPrevented
    createdAt := item.createdAt
    updatedAt := now }

/-- The five top-level collections of the record store.  Collections the
edit flow never touches are kept whole so frame conditions can be stated. -/
structure Store where
  inventory : String → Option StoredInventoryItem
  batches : List StoredBatch
  purchases : List PurchaseRecord
  suppliers : List Supplier
  categories : List (String × String)

/-- `EditInventoryModal.handleSubmit`, success path: a single
`update(ref(database, inventory/{item.id}), updatedItem)` — the record at
`item.id` is replaced by `updatedItemOf` (the update object carries every
item field), and nothing else in the store changes. -/
def editInventorySubmit (st : Store) (itemId : String) (item : StoredInventoryItem)
    (form : EditForm) (now : String) : Store :=
  { st with
    inventory := fun k =>
      if k = itemId then some (updatedItemOf item form now) else st.inventory k }

/-! ## Concrete fixtures used by counterexamples and witnesses -/

/-- A supplier on file. -/
def supA : Supplier :=
  { id := "s1", name := "Alpha", companyName := some "AlphaCorp" }

/-- Two line items, one with two batch entries and one with one — the
spec's fan-out example order. -/
def itemsTwo : List PurchaseItem :=
  [{ itemId := "i1", itemName := "I1", costPrice := some 5, sellingPrice := some 8,
     batches := [{ quantity := some 2, expiryDate := "2026-03-01" },
                 { quantity := some 3, expiryDate := "2026-04-01" }] },
   { itemId := "i2", itemName := "I2", costPrice := some 7, sellingPrice := some 9,
     batches := [{ quantity := some 4, expiryDate := "2026-05-01" }] }]

/-- The spec's §8 scenario with the null expiry replaced by a present
date: item I1 at 5.00/8.00 with batches (10, 2026-01-01) and (5, 2026-06-01). -/
def itemsSc : List PurchaseItem :=
  [{ itemId := "i1", itemName := "I1", costPrice := some 5, sellingPrice := some 8,
     batches := [{ quantity := some 10, expiryDate := "2026-01-01" },
                 { quantity := some 5, expiryDate := "2026-06-01" }] }]

/-- The purchase record produced for `itemsSc`. -/
def purchaseSc : PurchaseRecord := mkPurchaseRecord "p1" supA "s1" "2026-02-01" itemsSc

/-- The batch records produced for `itemsSc`. -/
def batchesSc : List BatchRecord := fanOutBatches "p1" itemsSc

/-- The spec's §8 scenario exactly as written: the second batch entry has
a null expiry, which the form leaves as the empty string. -/
def itemsScNull : List PurchaseItem :=
  [{ itemId := "i1", itemName := "I1", costPrice := some 5, sellingPrice := some 8,
     batches := [{ quantity := some 10, expiryDate := "2026-01-01" },
                 { quantity := some 5, expiryDate := "" }] }]

/-- One item with a sub-cent cost price of 10.005 and a single batch of
quantity 1. -/
def itemsFrac : List PurchaseItem :=
  [{ itemId := "i1", itemName := "I1", costPrice := some 10.005, sellingPrice := some 8,
     batches := [{ quantity := some 1, expiryDate := "2026-01-01" }] }]

/-- The purchase record produced for `itemsFrac`. -/
def purchaseFrac : PurchaseRecord := mkPurchaseRecord "p1" supA "s1" "2026-02-01" itemsFrac

/-- The batch records produced for `itemsFrac`. -/
def batchesFrac : List BatchRecord := fanOutBatches "p1" itemsFrac

/-- A stored inventory item. -/
def itemEx : StoredInventoryItem :=
  { tradeName := "Old", genericName := none, costPrice := 1, sellingPrice := 2,
    currentStock := 3, minimumStock := 4, brandName := none, category := none,
    notes := none, discountPrevented := false,
    createdAt := "2024-01-01T00:00:00Z", updatedAt := "2024-01-02T00:00:00Z" }

/-- An edit form submission for `itemEx`. -/
def formEx : EditForm :=
  { tradeName := " New ", genericName := "", costPrice := some 2, sellingPrice := some 3,
    currentStock := some 5, minimumStock := some 6, brandName := "", category := "",
    notes := "", discountPrevented := true }

/-- A store holding `itemEx` under key `a` and nothing else. -/
def storeEx : Store :=
  { inventory := fun k => if k = "a" then some itemEx else none,
    batches := [], purchases := [], suppliers := [], categories := [] }

/-! ## Helper lemmas -/

/-- Folding `+ f x` over a list is the starting value plus the sum of the
mapped list (the shape of every JS `reduce((s, x) => s + …, 0)` here). -/
lemma foldl_add_eq {α : Type} (f : α → ℚ) (l : List α) (a : ℚ) :
    l.foldl (fun s x => s + f x) a = a + (l.map f).sum := by
  induction l generalizing a with
  | nil => simp
  | cons x xs ih => simp [ih, add_assoc]

/-- `itemTotalQuantity` as a mapped sum. -/
lemma itemTotalQuantity_eq (it : PurchaseItem) :
    itemTotalQuantity it = (it.batches.map fun b => jsOr0 b.quantity).sum := by
  simpa using foldl_add_eq (fun b => jsOr0 b.quantity) it.batches 0

/-- `totalQuantityCalc` as a nested mapped sum. -/
lemma totalQuantityCalc_eq (items : List PurchaseItem) :
    totalQuantityCalc items =
      (items.map fun it => (it.batches.map fun b => jsOr0 b.quantity).sum).sum := by
  unfold totalQuantityCalc
  rw [foldl_add_eq itemTotalQuantity items 0, zero_add]
  apply congrArg List.sum
  apply List.map_congr_left
  intro it _
  exact itemTotalQuantity_eq it

/-- `itemTotalCost` as a mapped sum. -/
lemma itemTotalCost_eq (it : PurchaseItem) :
    itemTotalCost it =
      (it.batches.map fun b => jsOr0 b.quantity * jsOr0 it.costPrice * 100).sum := by
  simpa using
    foldl_add_eq (fun b => jsOr0 b.quantity * jsOr0 it.costPrice * 100) it.batches 0

/-- `totalCostCalc` as a nested mapped sum. -/
lemma totalCostCalc_eq (items : List PurchaseItem) :
    totalCostCalc items =
      (items.map fun it =>
        (it.batches.map fun b => jsOr0 b.quantity * jsOr0 it.costPrice * 100).sum).sum := by
  unfold totalCostCalc
  rw [foldl_add_eq itemTotalCost items 0, zero_add]
  apply congrArg List.sum
  apply List.map_congr_left
  intro it _
  exact itemTotalCost_eq it

/-- Summing a flat-mapped list of rationals item by item. -/
lemma sum_flatMap_q {α : Type} (l : List α) (f : α → List ℚ) :
    (l.flatMap f).sum = (l.map fun a => (f a).sum).sum := by
  induction l with
  | nil => rfl
  | cons x xs ih => simp [ih]

/-- `totalQuantityCalc` as one flat sum over all (line item × batch entry)
pairs. -/
lemma totalQuantityCalc_flat (items : List PurchaseItem) :
    totalQuantityCalc items =
      (items.flatMap fun it => it.batches.map fun e => jsOr0 e.quantity).sum := by
  rw [sum_flatMap_q, totalQuantityCalc_eq]

/-- `totalCostCalc` as one flat sum over all (line item × batch entry)
pairs. -/
lemma totalCostCalc_flat (items : List PurchaseItem) :
    totalCostCalc items =
      (items.flatMap fun it =>
        it.batches.map fun e => jsOr0 e.quantity * jsOr0 it.costPrice * 100).sum := by
  rw [sum_flatMap_q, totalCostCalc_eq]

/-- The quantities of the fanned-out batch records sum to the purchase's
computed total quantity. -/
lemma fanOut_quantity_sum (pid : String) (items : List PurchaseItem) :
    ((fanOutBatches pid items).map fun b => b.quantity).sum = totalQuantityCalc items := by
  rw [fanOutBatches, List.map_flatMap, sum_flatMap_q, totalQuantityCalc_eq]
  apply congrArg List.sum
  apply List.map_congr_left
  intro a ha
  apply congrArg List.sum
  rw [List.map_map]
  apply List.map_congr_left
  intro e he
  rfl

/-- Inverting a successful `handleSubmit`: the returned records are the
fan-out of the submitted items, with the purchase carrying the computed
totals and the generated id. -/
lemma handleSubmit_eq_some {suppliers : List Supplier} {sid pdate pid : String}
    {items : List PurchaseItem} {p : PurchaseRecord} {bs : List BatchRecord}
    (h : handleSubmit suppliers sid pdate pid items = some (p, bs)) :
    bs = fanOutBatches pid items ∧ p.id = pid ∧
      p.totalQuantity = totalQuantityCalc items ∧ p.totalCost = totalCostCalc items := by
  unfold handleSubmit at h
  by_cases hv : validSubmission sid items = true
  · rw [if_pos hv] at h
    cases hf : suppliers.find? (fun s => s.id == sid) with
    | none => rw [hf] at h; simp at h
    | some sup =>
        rw [hf] at h
        simp only [Option.some.injEq, Prod.mk.injEq] at h
        obtain ⟨hp, hbs⟩ := h
        subst hp
        subst hbs
        exact ⟨rfl, rfl, rfl, rfl⟩
  · rw [if_neg hv] at h
    simp at h

/-- `validPrice` unpacked: the field parses to some `c ≥ 0`. -/
lemma validPrice_iff (o : Option ℚ) : validPrice o = true ↔ ∃ c, o = some c ∧ 0 ≤ c := by
  cases o <;> simp [validPrice]

/-- `validQuantity` unpacked: the field parses to some `q > 0`. -/
lemma validQuantity_iff (o : Option ℚ) : validQuantity o = true ↔ ∃ q, o = some q ∧ 0 < q := by
  cases o <;> simp [validQuantity]

/-- The whole pre-write validation unpacked into its six spec rules. -/
lemma validSubmission_iff (sid : String) (items : List PurchaseItem) :
    validSubmission sid items = true ↔
      sid ≠ "" ∧ items ≠ [] ∧ ∀ it ∈ items,
        (∃ c, it.costPrice = some c ∧ 0 ≤ c) ∧ (∃ c, it.sellingPrice = some c ∧ 0 ≤ c) ∧
        it.batches ≠ [] ∧ ∀ e ∈ it.batches,
          (∃ q, e.quantity = some q ∧ 0 < q) ∧ e.expiryDate ≠ "" := by
  simp [validSubmission, validPurchaseItem, validBatchEntry, validPrice_iff, validQuantity_iff,
    List.all_eq_true, List.isEmpty_iff, Bool.and_eq_true, and_assoc]

/-- One `stockStep` adds the batch's quantity to the entry it matches and
leaves every other key alone (reading absent entries as 0). -/
lemma stockStep_lookup (m : String → Option ℚ) (b : StoredBatch) (k : String) :
    ((stockStep m b) k).getD 0 =
      (m k).getD 0 + (if k = b.itemId then jsOr0 b.quantity else 0) := by
  unfold stockStep
  by_cases hk : k = b.itemId
  · subst hk
    cases hmb : m b.itemId with
    | none => simp [hmb]
    | some v =>
        by_cases hv : v = 0
        · simp [hmb, hv]
        · simp [hmb, hv]
  · simp [hk]

/-- Folding `stockStep` over a batch list accumulates, per key, the sum of
the quantities of the matching batches. -/
lemma stockFold_lookup (bs : List StoredBatch) (m : String → Option ℚ) (k : String) :
    ((bs.foldl stockStep m) k).getD 0 =
      (m k).getD 0 + ((bs.filter fun b => b.itemId == k).map fun b => jsOr0 b.quantity).sum := by
  induction bs generalizing m with
  | nil => simp
  | cons b bs ih =>
    rw [List.foldl_cons, ih, stockStep_lookup]
    by_cases hk : k = b.itemId
    · simp [List.filter_cons, hk.symm, add_assoc]
    · have hne : (b.itemId == k) = false := by
        simp only [beq_eq_false_iff_ne, ne_eq]
        exact fun h => hk h.symm
      simp [List.filter_cons, hne, hk]

/-- `getStockFromBatches` is the `getD 0` read of the accumulated record. -/
lemma getStockFromBatches_eq_getD (bs : List StoredBatch) (k : String) :
    getStockFromBatches bs k = ((stockByItem bs) k).getD 0 := by
  unfold getStockFromBatches
  cases stockByItem bs k <;> simp

/-- The `itemsFrac` submission passes validation and resolves its
supplier, so `handleSubmit` produces the fan-out records. -/
lemma handleSubmit_itemsFrac :
    handleSubmit [supA] "s1" "2026-02-01" "p1" itemsFrac = some (purchaseFrac, batchesFrac) := by
  have hv : validSubmission "s1" itemsFrac = true := by
    rw [validSubmission_iff]
    refine ⟨by decide, by simp [itemsFrac], ?_⟩
    intro it hit
    simp only [itemsFrac, List.mem_singleton] at hit
    subst hit
    refine ⟨⟨10.005, rfl, by norm_num⟩, ⟨8, rfl, by norm_num⟩, by simp, ?_⟩
    intro e he
    simp only [List.mem_singleton] at he
    subst he
    exact ⟨⟨1, rfl, by norm_num⟩, by decide⟩
  simp only [handleSubmit, hv, if_true]
  rfl

/-- `daysUntilExpiry` of a whole number of days is that number
(`Math.ceil` of an exact quotient). -/
lemma daysUntilExpiry_add (t k : ℤ) : daysUntilExpiry t (t + k * msPerDay) = k := by
  unfold daysUntilExpiry
  have hd : ((msPerDay : ℤ) : ℚ) ≠ 0 := by norm_num [msPerDay]
  have h : ((t + k * msPerDay - t : ℤ) : ℚ) = (k : ℚ) * ((msPerDay : ℤ) : ℚ) := by
    push_cast
    ring
  rw [h, mul_div_assoc, div_self hd, mul_one, Int.ceil_intCast]

/-! ## Claims -/

/-- Claim C1: every purchase submission that passes validation and finds
its supplier persists exactly one purchase record and exactly one batch
record per (line item × batch entry) pair; each batch references the new
purchase's id and carries the line item's shared cost and selling price
(converted to cents), and the created batches' quantities sum to the
purchase's `totalQuantity`. -/
theorem claim_C1 (suppliers : List Supplier) (sid pdate pid : String)
    (items : List PurchaseItem) (sup : Supplier)
    (hval : validSubmission sid items = true)
    (hfind : suppliers.find? (fun s => s.id == sid) = some sup) :
    ∃ p bs, handleSubmit suppliers sid pdate pid items = some (p, bs) ∧
      bs.length = (items.map fun it => it.batches.length).sum ∧
      (∀ b ∈ bs, b.purchaseId = p.id) ∧
      (∀ b ∈ bs, ∃ it ∈ items, ∃ e ∈ it.batches,
        b.itemId = it.itemId ∧ b.quantity = jsOr0 e.quantity ∧
        b.costPrice = jsRound (jsOr0 it.costPrice * 100) ∧
        b.sellingPrice = jsRound (jsOr0 it.sellingPrice * 100) ∧
        b.expiryDate = e.expiryDate) ∧
      (bs.map fun b => b.quantity).sum = p.totalQuantity := by
  refine ⟨mkPurchaseRecord pid sup sid pdate items, fanOutBatches pid items,
    ?_, ?_, ?_, ?_, ?_⟩
  · simp [handleSubmit, hval, hfind]
  · rw [fanOutBatches, List.length_flatMap]
    apply congrArg List.sum
    apply List.map_congr_left
    intro it _
    exact List.length_map it.batches (mkBatchRecord pid it)
  · intro b hb
    simp only [fanOutBatches, List.mem_flatMap, List.mem_map] at hb
    obtain ⟨it, hit, e, he, rfl⟩ := hb
    rfl
  · intro b hb
    simp only [fanOutBatches, List.mem_flatMap, List.mem_map] at hb
    obtain ⟨it, hit, e, he, rfl⟩ := hb
    exact ⟨it, hit, e, he, rfl, rfl, rfl, rfl, rfl⟩
  · rw [fanOut_quantity_sum]
    rfl

/-- Witness for C1, on the spec's own example: two line items, one with
two batch entries and one with one, giving three batch records. -/
theorem claim_C1_witness :
    validSubmission "s1" itemsTwo = true ∧
    [supA].find? (fun s => s.id == "s1") = some supA ∧
    (itemsTwo.map fun it => it.batches.length).sum = 3 ∧
    (∃ p bs, handleSubmit [supA] "s1" "2026-02-01" "p1" itemsTwo = some (p, bs) ∧
      bs.length = (itemsTwo.map fun it => it.batches.length).sum ∧
      (∀ b ∈ bs, b.purchaseId = p.id) ∧
      (∀ b ∈ bs, ∃ it ∈ itemsTwo, ∃ e ∈ it.batches,
        b.itemId = it.itemId ∧ b.quantity = jsOr0 e.quantity ∧
        b.costPrice = jsRound (jsOr0 it.costPrice * 100) ∧
        b.sellingPrice = jsRound (jsOr0 it.sellingPrice * 100) ∧
        b.expiryDate = e.expiryDate) ∧
      (bs.map fun b => b.quantity).sum = p.totalQuantity) :=
  ⟨rfl, rfl, rfl, claim_C1 [supA] "s1" "2026-02-01" "p1" itemsTwo supA rfl rfl⟩

/-- Claim C2: for every set of batch records and every item id, the
aggregated on-hand stock equals the sum of `quantity` over the batches
whose `itemId` matches — unconditionally, expiry ignored — and an item
with no matching batches aggregates to 0. -/
theorem claim_C2 (bs : List StoredBatch) (itemId : String) :
    getStockFromBatches bs itemId =
      ((bs.filter fun b => b.itemId == itemId).map fun b => jsOr0 b.quantity).sum ∧
    ((bs.filter fun b => b.itemId == itemId) = [] → getStockFromBatches bs itemId = 0) := by
  have h : getStockFromBatches bs itemId =
      ((bs.filter fun b => b.itemId == itemId).map fun b => jsOr0 b.quantity).sum := by
    rw [getStockFromBatches_eq_getD]
    unfold stockByItem
    rw [stockFold_lookup]
    simp
  exact ⟨h, fun hnil => by rw [h, hnil]; rfl⟩

/-- Witness for C2: an item with no batches aggregates to 0, not an error. -/
theorem claim_C2_witness :
    (([] : List StoredBatch).filter fun b => b.itemId == "x") = [] ∧
    getStockFromBatches [] "x" = 0 :=
  ⟨rfl, (claim_C2 [] "x").2 rfl⟩

/-- Claim C3: the expiry classification boundaries, for every midnight
"today" (in ms): no expiry date is NoExpiry; yesterday is Expired; today
is ExpiringSoon with 0 days remaining (not Expired); today + 30 days is
ExpiringSoon; today + 31 days is Active. -/
theorem claim_C3 (t : ℤ) :
    classifyBatch t none = .noExpiry ∧
    classifyBatch t (some (t - msPerDay)) = .expired ∧
    classifyBatch t (some t) = .expiringSoon 0 ∧
    classifyBatch t (some (t + 30 * msPerDay)) = .expiringSoon 30 ∧
    classifyBatch t (some (t + 31 * msPerDay)) = .active := by
  refine ⟨rfl, ?_, ?_, ?_, ?_⟩
  · have hlt : t - msPerDay < t := by unfold msPerDay; omega
    simp [classifyBatch, hlt]
  · have h0 : daysUntilExpiry t t = 0 := by simpa using daysUntilExpiry_add t 0
    simp [classifyBatch, h0]
  · have h30 := daysUntilExpiry_add t 30
    have hlt : ¬ (t + 30 * msPerDay < t) := by unfold msPerDay; omega
    simp [classifyBatch, hlt, h30]
  · have h31 := daysUntilExpiry_add t 31
    have hlt : ¬ (t + 31 * msPerDay < t) := by unfold msPerDay; omega
    simp [classifyBatch, hlt, h31]

/-- Claim C4: the stock badge boundaries, for every stock `s` and
non-negative threshold `m`: `s = 0` is OutOfStock regardless of `m`;
`0 < s ≤ m` is LowStock (so `s = m` is LowStock, not InStock); `s > m`
is InStock (so `s = m + 1` is InStock). -/
theorem claim_C4 (s m : ℚ) (hm : 0 ≤ m) :
    (s = 0 → getStatusBadge s m = .outOfStock) ∧
    (0 < s → s ≤ m → getStatusBadge s m = .lowStock) ∧
    (m < s → getStatusBadge s m = .inStock) := by
  unfold getStatusBadge
  refine ⟨fun h => by simp [h], fun h1 h2 => ?_, fun h => ?_⟩
  · rw [if_neg (by exact fun hc => absurd hc (ne_of_gt h1)), if_pos h2]
  · have hs : s ≠ 0 := by
      intro hc
      rw [hc] at h
      exact absurd hm (not_le.mpr h)
    rw [if_neg hs, if_neg (not_le.mpr h)]

/-- Witness for C4 at the boundary `m = 2`: stock 0 is OutOfStock, stock
2 is LowStock, stock 3 is InStock. -/
theorem claim_C4_witness :
    (0 : ℚ) ≤ 2 ∧
    getStatusBadge 0 2 = .outOfStock ∧
    getStatusBadge 2 2 = .lowStock ∧
    getStatusBadge 3 2 = .inStock :=
  ⟨by norm_num, (claim_C4 0 2 (by norm_num)).1 rfl,
    (claim_C4 2 2 (by norm_num)).2.1 (by norm_num) (by norm_num),
    (claim_C4 3 2 (by norm_num)).2.2 (by norm_num)⟩

/-- Claim C5: any of the validation failures — empty line-item list, a
line item with no batch entries, a batch quantity that does not parse to
a number `> 0`, an empty expiry date, or a price that does not parse to a
number `≥ 0` — rejects the whole submission before any write: no purchase
record and no batch record is produced. -/
theorem claim_C5 (suppliers : List Supplier) (sid pdate pid : String)
    (items : List PurchaseItem)
    (h : items = []
      ∨ (∃ it ∈ items, it.batches = [])
      ∨ (∃ it ∈ items, ∃ e ∈ it.batches,
          e.quantity = none ∨ ∃ q, e.quantity = some q ∧ q ≤ 0)
      ∨ (∃ it ∈ items, ∃ e ∈ it.batches, e.expiryDate = "")
      ∨ (∃ it ∈ items, it.costPrice = none ∨ (∃ c, it.costPrice = some c ∧ c < 0)
          ∨ it.sellingPrice = none ∨ (∃ c, it.sellingPrice = some c ∧ c < 0))) :
    handleSubmit suppliers sid pdate pid items = none := by
  cases hb : validSubmission sid items with
  | false => simp [handleSubmit, hb]
  | true =>
    exfalso
    rw [validSubmission_iff] at hb
    obtain ⟨-, hne, hall⟩ := hb
    rcases h with h | ⟨it, hit, h⟩ | ⟨it, hit, e, he, h⟩ | ⟨it, hit, e, he, h⟩ | ⟨it, hit, h⟩
    · exact hne h
    · exact (hall it hit).2.2.1 h
    · obtain ⟨q, hq, hqpos⟩ := ((hall it hit).2.2.2 e he).1
      rcases h with h | ⟨q2, hq2, hq2le⟩
      · rw [h] at hq
        exact Option.noConfusion hq
      · rw [hq2] at hq
        injection hq with hq
        subst hq
        exact absurd hqpos (not_lt.mpr hq2le)
    · exact ((hall it hit).2.2.2 e he).2 h
    · obtain ⟨⟨c1, hc1, hc1ge⟩, ⟨c2, hc2, hc2ge⟩, -, -⟩ := hall it hit
      rcases h with h | ⟨c, hc, hclt⟩ | h | ⟨c, hc, hclt⟩
      · rw [h] at hc1
        exact Option.noConfusion hc1
      · rw [hc] at hc1
        injection hc1 with hh
        subst hh
        exact absurd hc1ge (not_le.mpr hclt)
      · rw [h] at hc2
        exact Option.noConfusion hc2
      · rw [hc] at hc2
        injection hc2 with hh
        subst hh
        exact absurd hc2ge (not_le.mpr hclt)

/-- Witness for C5: the empty line-item list is rejected with nothing
persisted. -/
theorem claim_C5_witness :
    (([] : List PurchaseItem) = []
      ∨ (∃ it ∈ ([] : List PurchaseItem), it.batches = [])
      ∨ (∃ it ∈ ([] : List PurchaseItem), ∃ e ∈ it.batches,
          e.quantity = none ∨ ∃ q, e.quantity = some q ∧ q ≤ 0)
      ∨ (∃ it ∈ ([] : List PurchaseItem), ∃ e ∈ it.batches, e.expiryDate = "")
      ∨ (∃ it ∈ ([] : List PurchaseItem),
          it.costPrice = none ∨ (∃ c, it.costPrice = some c ∧ c < 0)
          ∨ it.sellingPrice = none ∨ (∃ c, it.sellingPrice = some c ∧ c < 0))) ∧
    handleSubmit [supA] "s1" "2026-02-01" "p1" [] = none :=
  ⟨Or.inl rfl, claim_C5 [supA] "s1" "2026-02-01" "p1" [] (Or.inl rfl)⟩

/-- Claim C6: a submission whose supplier reference resolves to no known
supplier is rejected and nothing is written — no purchase record and no
batch record. -/
theorem claim_C6 (suppliers : List Supplier) (sid pdate pid : String)
    (items : List PurchaseItem)
    (hfind : suppliers.find? (fun s => s.id == sid) = none) :
    handleSubmit suppliers sid pdate pid items = none := by
  cases hb : validSubmission sid items with
  | false => simp [handleSubmit, hb]
  | true => simp [handleSubmit, hb, hfind]

/-- Witness for C6: an otherwise fully valid submission against an empty
supplier table writes nothing. -/
theorem claim_C6_witness :
    ([] : List Supplier).find? (fun s => s.id == "s1") = none ∧
    handleSubmit [] "s1" "2026-02-01" "p1" itemsTwo = none :=
  ⟨rfl, claim_C6 [] "s1" "2026-02-01" "p1" itemsTwo rfl⟩

/-- Counterexample to C7: the code does not round `totalCost` to an
integer number of cents.  Submitting one unit of an item with cost price
10.005 yields `totalCost = 1000.5` — its fractional part is 1/2, so it is
not an integer number of cents as the claim states. -/
theorem claim_C7_counterexample :
    handleSubmit [supA] "s1" "2026-02-01" "p1" itemsFrac = some (purchaseFrac, batchesFrac) ∧
    purchaseFrac.totalCost = 2001/2 ∧
    purchaseFrac.totalCost - ((⌊purchaseFrac.totalCost⌋ : ℤ) : ℚ) = 1/2 := by
  have hc : purchaseFrac.totalCost = 2001/2 := by
    norm_num [purchaseFrac, mkPurchaseRecord, totalCostCalc, itemTotalCost, itemsFrac, jsOr0]
  refine ⟨handleSubmit_itemsFrac, hc, ?_⟩
  rw [hc]
  norm_num

/-- Claim C7 as amended: for every successful purchase submission,
`totalQuantity` is the sum of the batch entries' quantities, and
`totalCost` is the sum over all batch entries of quantity × the line
item's cost price × 100 with **no rounding applied** (so it can be a
non-integer number of cents when quantity × cost price has sub-cent
precision; when each product is whole — e.g. 15 units at 5.00 — it equals
the claimed integer, 7500). -/
theorem claim_C7 (suppliers : List Supplier) (sid pdate pid : String)
    (items : List PurchaseItem) (p : PurchaseRecord) (bs : List BatchRecord)
    (h : handleSubmit suppliers sid pdate pid items = some (p, bs)) :
    p.totalQuantity = (items.flatMap fun it => it.batches.map fun e => jsOr0 e.quantity).sum ∧
    p.totalCost = (items.flatMap fun it =>
      it.batches.map fun e => jsOr0 e.quantity * jsOr0 it.costPrice * 100).sum := by
  obtain ⟨-, -, hq, hc⟩ := handleSubmit_eq_some h
  exact ⟨by rw [hq, totalQuantityCalc_flat], by rw [hc, totalCostCalc_flat]⟩

/-- Witness for C7 (amended), on the spec's whole-cent scenario: 15 units
at cost price 5.00 give `totalCost = 7500` and `totalQuantity = 15`. -/
theorem claim_C7_witness :
    handleSubmit [supA] "s1" "2026-02-01" "p1" itemsSc = some (purchaseSc, batchesSc) ∧
    (purchaseSc.totalQuantity =
        (itemsSc.flatMap fun it => it.batches.map fun e => jsOr0 e.quantity).sum ∧
      purchaseSc.totalCost = (itemsSc.flatMap fun it =>
        it.batches.map fun e => jsOr0 e.quantity * jsOr0 it.costPrice * 100).sum) ∧
    purchaseSc.totalQuantity = 15 ∧
    purchaseSc.totalCost = 7500 :=
  ⟨rfl, claim_C7 [supA] "s1" "2026-02-01" "p1" itemsSc purchaseSc batchesSc rfl,
    by norm_num [purchaseSc, mkPurchaseRecord, totalQuantityCalc, itemTotalQuantity,
      itemsSc, jsOr0],
    by norm_num [purchaseSc, mkPurchaseRecord, totalCostCalc, itemTotalCost, itemsSc, jsOr0]⟩

/-- Counterexample to C8: the spec's scenario includes a batch entry with
a null (empty) expiry date, but the add-purchase flow rejects any empty
expiry date before writing, so this exact submission is rejected — no
purchase record and no batch records result, rather than the claimed
success with 2 batches. -/
theorem claim_C8_counterexample :
    handleSubmit [supA] "s1" "2026-02-01" "p1" itemsScNull = none := by
  rfl

/-- Claim C8 as amended: the same scenario with the null expiry replaced
by a present date (the flow requires one) — supplier S1, item I1 at
cost 5.00 / selling 8.00, batches (10, 2026-01-01) and (5, 2026-06-01) —
succeeds with 2 batch records under I1 totaling 15 units,
`totalQuantity = 15` and `totalCost = 7500` minor units. -/
theorem claim_C8 :
    handleSubmit [supA] "s1" "2026-02-01" "p1" itemsSc = some (purchaseSc, batchesSc) ∧
    batchesSc.length = 2 ∧
    batchesSc.map (fun b => b.itemId) = ["i1", "i1"] ∧
    (batchesSc.map fun b => b.quantity).sum = 15 ∧
    purchaseSc.totalQuantity = 15 ∧
    purchaseSc.totalCost = 7500 := by
  refine ⟨by rfl, by rfl, by rfl, ?_, ?_, ?_⟩
  · norm_num [batchesSc, fanOutBatches, itemsSc, mkBatchRecord, jsOr0]
  · norm_num [purchaseSc, mkPurchaseRecord, totalQuantityCalc, itemTotalQuantity, itemsSc, jsOr0]
  · norm_num [purchaseSc, mkPurchaseRecord, totalCostCalc, itemTotalCost, itemsSc, jsOr0]

/-- Claim C9: every batch record created by the purchase flow stores the
line item's prices converted to minor units by one fixed, deterministic
rounding rule — `Math.round`, which picks the unique integer `z` with
`q - 1/2 < z ≤ q + 1/2` (round half up). -/
theorem claim_C9 (suppliers : List Supplier) (sid pdate pid : String)
    (items : List PurchaseItem) (p : PurchaseRecord) (bs : List BatchRecord)
    (h : handleSubmit suppliers sid pdate pid items = some (p, bs)) :
    (∀ b ∈ bs, ∃ it ∈ items,
      b.costPrice = jsRound (jsOr0 it.costPrice * 100) ∧
      b.sellingPrice = jsRound (jsOr0 it.sellingPrice * 100)) ∧
    (∀ q : ℚ, ∀ z : ℤ, jsRound q = z ↔ q - 1/2 < (z : ℚ) ∧ (z : ℚ) ≤ q + 1/2) := by
  obtain ⟨hbs, -, -, -⟩ := handleSubmit_eq_some h
  constructor
  · intro b hb
    rw [hbs] at hb
    simp only [fanOutBatches, List.mem_flatMap, List.mem_map] at hb
    obtain ⟨it, hit, e, he, rfl⟩ := hb
    exact ⟨it, hit, rfl, rfl⟩
  · intro q z
    unfold jsRound
    rw [Int.floor_eq_iff]
    constructor
    · rintro ⟨h1, h2⟩
      exact ⟨by linarith, by linarith⟩
    · rintro ⟨h1, h2⟩
      exact ⟨by linarith, by linarith⟩

/-- Witness for C9, at the spec's `.005` boundary: cost price 10.005
rounds to the single deterministic minor-unit integer 1001
(`Math.round(1000.5) = 1001`, half up). -/
theorem claim_C9_witness :
    handleSubmit [supA] "s1" "2026-02-01" "p1" itemsFrac = some (purchaseFrac, batchesFrac) ∧
    ((∀ b ∈ batchesFrac, ∃ it ∈ itemsFrac,
        b.costPrice = jsRound (jsOr0 it.costPrice * 100) ∧
        b.sellingPrice = jsRound (jsOr0 it.sellingPrice * 100)) ∧
      (∀ q : ℚ, ∀ z : ℤ, jsRound q = z ↔ q - 1/2 < (z : ℚ) ∧ (z : ℚ) ≤ q + 1/2)) ∧
    batchesFrac.map (fun b => b.costPrice) = [1001] :=
  ⟨handleSubmit_itemsFrac,
    claim_C9 [supA] "s1" "2026-02-01" "p1" itemsFrac purchaseFrac batchesFrac
      handleSubmit_itemsFrac,
    by norm_num [batchesFrac, fanOutBatches, itemsFrac, mkBatchRecord, jsRound, jsOr0]⟩

/-- Claim C10: a successful edit of an inventory item writes back the
original `createdAt` unchanged while replacing the editable fields with
the submitted values and a fresh `updatedAt`; no other inventory record
and no other collection is modified. -/
theorem claim_C10 (st : Store) (itemId : String) (item : StoredInventoryItem)
    (form : EditForm) (now : String) :
    (editInventorySubmit st itemId item form now).inventory itemId =
        some (updatedItemOf item form now) ∧
    ((editInventorySubmit st itemId item form now).inventory itemId).map
        (fun r => r.createdAt) = some item.createdAt ∧
    ((updatedItemOf item form now).tradeName = form.tradeName.trim ∧
      (updatedItemOf item form now).costPrice = jsOr0 form.costPrice ∧
      (updatedItemOf item form now).sellingPrice = jsOr0 form.sellingPrice ∧
      (updatedItemOf item form now).currentStock = jsOrInt0 form.currentStock ∧
      (updatedItemOf item form now).minimumStock = jsOrInt0 form.minimumStock ∧
      (updatedItemOf item form now).category = strOrNull form.category ∧
      (updatedItemOf item form now).notes = trimOrNull form.notes ∧
      (updatedItemOf item form now).discountPrevented = form.discountPrevented ∧
      (updatedItemOf item form now).updatedAt = now) ∧
    (∀ k, k ≠ itemId →
      (editInventorySubmit st itemId item form now).inventory k = st.inventory k) ∧
    (editInventorySubmit st itemId item form now).batches = st.batches ∧
    (editInventorySubmit st itemId item form now).purchases = st.purchases ∧
    (editInventorySubmit st itemId item form now).suppliers = st.suppliers ∧
    (editInventorySubmit st itemId item form now).categories = st.categories := by
  refine ⟨?_, ?_, ⟨rfl, rfl, rfl, rfl, rfl, rfl, rfl, rfl, rfl⟩, ?_, rfl, rfl, rfl, rfl⟩
  · simp [editInventorySubmit]
  · simp [editInventorySubmit, updatedItemOf]
  · intro k hk
    simp [editInventorySubmit, hk]

/-- Witness for C10: editing the item stored under key `a` updates that
record (preserving `createdAt`) and leaves the record under key `b`
untouched. -/
theorem claim_C10_witness :
    (editInventorySubmit storeEx "a" itemEx formEx "2026-01-01T00:00:00Z").inventory "a" =
        some (updatedItemOf itemEx formEx "2026-01-01T00:00:00Z") ∧
    ((editInventorySubmit storeEx "a" itemEx formEx "2026-01-01T00:00:00Z").inventory "a").map
        (fun r => r.createdAt) = some itemEx.createdAt ∧
    (editInventorySubmit storeEx "a" itemEx formEx "2026-01-01T00:00:00Z").inventory "b" =
        storeEx.inventory "b" :=
  ⟨(claim_C10 storeEx "a" itemEx formEx "2026-01-01T00:00:00Z").1,
    (claim_C10 storeEx "a" itemEx formEx "2026-01-01T00:00:00Z").2.1,
    (claim_C10 storeEx "a" itemEx formEx "2026-01-01T00:00:00Z").2.2.2.1 "b" (by decide)⟩

end Pms
